import Mathlib

/-!
Verification of the MasterLT_EPOS4Demo repository (`src/main.cpp`).

The demo program consists of `app_main` (setup sequence followed by motion
demos), a `PDOHelper` configuration function, a `receiverTask` with an
error-classification chain, and a `heartbeatTask`.  The EPOS4 library that the
demo links against is not part of this repository, so every library call is
modelled by an abstract outcome supplied through an environment record, and
each call site is recorded as an event in an execution trace.  Loops are
interpreted with explicit fuel: running with fuel `f` performs `f` loop-level
steps and returns the events emitted so far plus the control location reached.
-/

namespace EPOS4Demo

/-- Success code of the EPOS4 library.  Modelled from the spec: the library
itself is not in this repository; the demo compares every result against
`ERROR_CODE_NOERROR` and aggregates results with `ret |= ...; if (ret != 0)`,
which is meaningful only with the conventional success value `0`. -/
def ERROR_CODE_NOERROR : Nat := 0

/-- Modelled from the spec: `MASTER_ERROR_CODE_GENERIC_ERROR` is a nonzero
master-class error code of the EPOS4 library; its numeric value is not part of
this repository and only its distinctness from `ERROR_CODE_NOERROR` is used. -/
def MASTER_ERROR_CODE_GENERIC_ERROR : Nat := 1

/-- Node-ID of the controlled EPOS4, `const int motorNodeID = 1` in the demo. -/
def motorNodeID : Nat := 1

/-- Node-ID used for master heartbeats, `const int masterNodeID = 127`. -/
def masterNodeID : Nat := 127

/-- Object-dictionary references (`EPOS_OD_...` constants from the library
header).  Their numeric (index, sub-index) values are irrelevant to the demo
logic; only their identity matters. -/
inductive ODRef where
  | controlWord
  | statusWord
  | profileVelocity
  | profileAcceleration
  | profileDeceleration
  | targetPosition
  | inhibitTimeTxPDO1
  | velocityActualAveraged
  | velocityActualValue
  | positionActualValue
  deriving DecidableEq, Repr

/-- NMT commands issued by the demo. -/
inductive NMTCommand where
  | gotoPreOperational
  | gotoOperational
  deriving DecidableEq, Repr

/-- Operation modes selected by the demo (`EPOS_OPERATION_MODE_PVM/PPM`). -/
inductive OpMode where
  | PVM
  | PPM
  deriving DecidableEq, Repr

/-- One observable action of the demo program.  Each constructor corresponds to
one call site in `src/main.cpp`; log messages keep their tag and format string
(formatted numeric arguments are elided). -/
inductive Event where
  | twaiSetup
  | createTask (name : String)
  | disable
  | clearError
  | changeNMT (cmd : NMTCommand)
  | logMsg (tag msg : String)
  | wait (ms : Nat)
  | resetNumPDOMapped
  | configPDO (name : String)
  | sendSDO (od : ODRef) (value : Int)
  | setHeartbeatConsumer (node timeoutMs : Nat)
  | halt
  | enable
  | setMode (m : OpMode)
  | moveToTargetVelocity (rpm : Int)
  | moveToTargetPosition (pos : Int) (arg1 arg2 : Bool)
  | getODpair (od : ODRef)
  | getODvalue (od : ODRef)
  | sendRxPDO (name : String) (value : Int)
  | broadcastSync
  deriving DecidableEq, Repr

/-- Outcomes of the library calls made during one run of `app_main`.  The
EPOS4 library is external to this repository, so each result the demo inspects
is an abstract input: NMT transition results, the four SDO-write results inside
`PDOHelper`, the `(value, status)` pairs returned by `getODpair` (the status
byte is a `uint8_t`), the control words produced by `setControlWordBits`, and
the value of `getBitFromStatusWord(SW_BITS_TARGET_REACHED)` at each iteration
of the polling loop. -/
structure Env where
  nmtPreOpRes : Nat
  nmtOpRes : Nat
  cfgCWSRes : Nat
  cfgPVRes : Nat
  cfgSPRes : Nat
  inhibitRes : Nat
  odVelVal : Int
  odVelStatus : Nat
  odAccelVal : Int
  odAccelStatus : Nat
  odDecelVal : Int
  odDecelStatus : Nat
  cwStart : Int
  cwReset : Int
  targetReachedBit : Nat → Nat

/-- Mirrors `PDOHelper(EPOS4 &node)` (src/main.cpp lines 91-128): reset the PDO
map, wait 100 ms, configure RxPDO1 ("CWS"), RxPDO2 ("PV"), TxPDO1 ("SP"), write
the TxPDO1 inhibit time via `sendSDO` (whose return value the source discards),
and return `MASTER_ERROR_CODE_GENERIC_ERROR` when the OR-aggregate `ret` of the
three `configPDO` results is nonzero, else `ERROR_CODE_NOERROR`. -/
def PDOHelper (env : Env) : List Event × Nat :=
  let ret := ((0 ||| env.cfgCWSRes) ||| env.cfgPVRes) ||| env.cfgSPRes
  ([Event.resetNumPDOMapped, Event.wait 100,
    Event.configPDO "CWS", Event.configPDO "PV", Event.configPDO "SP",
    Event.sendSDO ODRef.inhibitTimeTxPDO1 100],
   if ret ≠ 0 then MASTER_ERROR_CODE_GENERIC_ERROR else ERROR_CODE_NOERROR)

/-- Return value of `PDOHelper`, as checked by `app_main`. -/
def PDOHelperRet (env : Env) : Nat := (PDOHelper env).2

/-- Mirrors the three `uint8_t` status accumulations in `app_main`
(`statusAll = status; statusAll &= status; statusAll &= status`, lines
245-250); the `% 256` truncations reflect the `uint8_t` status byte returned
by `getODpair`. -/
def statusAll (env : Env) : Nat :=
  ((env.odVelStatus % 256) &&& (env.odAccelStatus % 256)) &&& (env.odDecelStatus % 256)

/-- Control locations of `app_main` at loop granularity: `entry` is the start
of the function, `poll i` is the head of the target-reached polling loop at
iteration `i`, `demo` the head of the final Profile Position Mode loop,
`fail` the head of the wait loop after "Setup Failed!", and `returned` the end
of the function body (reached only if some loop exits). -/
inductive Phase where
  | entry
  | poll (i : Nat)
  | demo
  | fail
  | returned
  deriving DecidableEq, Repr

/-- Events of `app_main` before the first setup check: driver setup, task
creation, `disable`, `clearError`, and the Pre-Operational NMT command (whose
result is tested right after), src/main.cpp lines 167-180. -/
def preNMTEvents : List Event :=
  [Event.twaiSetup, Event.createTask "receiverTask", Event.createTask "heartbeat",
   Event.disable, Event.clearError, Event.changeNMT NMTCommand.gotoPreOperational]

/-- Straight-line events of the successful motion body of `app_main`,
src/main.cpp lines 198-271: from the "Set to Operational" log down to the SDO
write that clears the new-set-point bit, just before the polling loop. -/
def successMotionEvents (env : Env) : List Event :=
  [Event.logMsg "NMT" "Set to Operational", Event.wait 1000,
   Event.logMsg "Axis State" "Enabling...", Event.halt, Event.enable,
   Event.logMsg "Profile Velocity" "Changing Mode", Event.setMode OpMode.PVM,
   Event.logMsg "Profile Velocity" "Starting Motion...",
   Event.moveToTargetVelocity 120, Event.wait 1000,
   Event.halt, Event.logMsg "Profile Velocity" "Stopping", Event.wait 1000,
   Event.logMsg "Profile Position" "Changing Mode", Event.setMode OpMode.PPM,
   Event.logMsg "Profile Position" "Starting Motion...",
   Event.moveToTargetPosition 1000 true true,
   Event.logMsg "Profile Position" "Motion Complete", Event.wait 1000,
   Event.getODpair ODRef.profileVelocity,
   Event.getODpair ODRef.profileAcceleration,
   Event.getODpair ODRef.profileDeceleration,
   Event.sendRxPDO "PV" 120,
   Event.sendSDO ODRef.profileAcceleration 60,
   Event.sendSDO ODRef.profileDeceleration 60,
   Event.sendSDO ODRef.targetPosition 4000,
   Event.sendRxPDO "CWS" env.cwStart,
   Event.logMsg "SYNC Motion" "Move configured, waiting for Sync Object...",
   Event.wait 5000,
   Event.broadcastSync,
   Event.logMsg "SYNC Motion" "Sent Sync, Motion Started", Event.wait 50,
   Event.sendSDO ODRef.controlWord env.cwReset]

/-- Events and successor location for the setup portion of `app_main`
(src/main.cpp lines 167-271 and the fall-through to line 313): the three
nested checks on the Pre-Operational transition, `PDOHelper`, and the
Operational transition; any failed check falls through to the
"Setup Failed!" log and the failure wait loop. -/
def entryStep (env : Env) : List Event × Phase :=
  if env.nmtPreOpRes = ERROR_CODE_NOERROR then
    let ev1 := preNMTEvents ++
      [Event.logMsg "NMT" "Set to Pre-Operational", Event.wait 1000] ++
      (PDOHelper env).1
    if PDOHelperRet env = ERROR_CODE_NOERROR then
      let ev2 := ev1 ++
        [Event.logMsg "app_main" "EPOS PDO CONFIGURATION FINISHED",
         Event.setHeartbeatConsumer masterNodeID 1500, Event.wait 1000,
         Event.changeNMT NMTCommand.gotoOperational]
      if env.nmtOpRes = ERROR_CODE_NOERROR then
        (ev2 ++ successMotionEvents env, Phase.poll 0)
      else
        (ev2 ++ [Event.logMsg "DEMO" "Setup Failed!"], Phase.fail)
    else
      (ev1 ++ [Event.logMsg "DEMO" "Setup Failed!"], Phase.fail)
  else
    (preNMTEvents ++ [Event.logMsg "DEMO" "Setup Failed!"], Phase.fail)

/-- Body of one iteration of the target-reached polling loop, src/main.cpp
lines 274-282 (the speed/position log keeps its tag; numeric values elided). -/
def pollIterEvents : List Event :=
  [Event.getODvalue ODRef.velocityActualAveraged,
   Event.getODvalue ODRef.positionActualValue,
   Event.wait 100,
   Event.logMsg "SYNC Motion" "speed/position"]

/-- Events emitted when the polling loop exits, src/main.cpp lines 284-297:
the completion log and the profile restore branch guarded by
`if (statusAll & 0b1)`. -/
def afterPollEvents (env : Env) : List Event :=
  Event.logMsg "SYNC Motion" "Motion Complete!" ::
    (if statusAll env &&& 1 ≠ 0 then
      [Event.logMsg "SYNC Motion" "Returning to Old Profile",
       Event.sendRxPDO "PV" env.odVelVal,
       Event.sendSDO ODRef.profileAcceleration env.odAccelVal,
       Event.sendSDO ODRef.profileDeceleration env.odDecelVal]
    else
      [Event.logMsg "SYNC Motion" "Old Profile invalid"])

/-- Body of one iteration of the final `while (true)` demo loop, src/main.cpp
lines 302-308. -/
def demoIterEvents : List Event :=
  [Event.wait 3000, Event.logMsg "DEMO LOOP" "Moving...",
   Event.moveToTargetPosition 500 true true, Event.logMsg "DEMO LOOP" "Moved."]

/-- One loop-granularity step of `app_main` from a control location: the
emitted events and the next location.  The `demo` and `fail` loops are
`while (true)` loops in the source, so their step goes back to themselves;
`returned` (the end of the function body) has no incoming step. -/
def phaseStep (env : Env) : Phase → List Event × Phase
  | Phase.entry => entryStep env
  | Phase.poll i =>
      if env.targetReachedBit i ≠ 1 then (pollIterEvents, Phase.poll (i + 1))
      else (afterPollEvents env, Phase.demo)
  | Phase.demo => (demoIterEvents, Phase.demo)
  | Phase.fail => ([Event.wait 1000], Phase.fail)
  | Phase.returned => ([], Phase.returned)

/-- Control location reached after `fuel` steps from `p`. -/
def runPhase (env : Env) : Nat → Phase → Phase
  | 0, p => p
  | f + 1, p => runPhase env f (phaseStep env p).2

/-- Events emitted during `fuel` steps from `p`. -/
def runEvents (env : Env) : Nat → Phase → List Event
  | 0, _ => []
  | f + 1, p => (phaseStep env p).1 ++ runEvents env f (phaseStep env p).2

/-- Trace of `app_main` after `fuel` steps from its entry. -/
def appMainEvents (env : Env) (fuel : Nat) : List Event :=
  runEvents env fuel Phase.entry

/-- Control location of `app_main` after `fuel` steps from its entry. -/
def appMainPhase (env : Env) (fuel : Nat) : Phase :=
  runPhase env fuel Phase.entry

/-- Motion commands in the sense of the setup-failure safety property:
`enable`, `moveToTargetVelocity`, `moveToTargetPosition`, `sendRxPDO`,
`broadcastSync`. -/
def isMotionEvent : Event → Bool
  | Event.enable => true
  | Event.moveToTargetVelocity _ => true
  | Event.moveToTargetPosition _ _ _ => true
  | Event.sendRxPDO _ _ => true
  | Event.broadcastSync => true
  | _ => false

/-- Configuration writes issued by `PDOHelper` to the node: the `configPDO`
calls and the inhibit-time `sendSDO` write. -/
def isConfigWrite : Event → Bool
  | Event.configPDO _ => true
  | Event.sendSDO _ _ => true
  | _ => false

/-- Recognises the SYNC broadcast. -/
def isSyncEvent : Event → Bool
  | Event.broadcastSync => true
  | _ => false

/-- Recognises the write to the synchronous control-word RxPDO channel
(`RxPDO_ControlWord_Synchronous`, contracted name "CWS"). -/
def isCWSWrite : Event → Bool
  | Event.sendRxPDO n _ => n == "CWS"
  | _ => false

/-- Recognises the log stating that the SYNC motion has started. -/
def isMotionStartedLog : Event → Bool
  | Event.logMsg t m => t == "SYNC Motion" && m == "Sent Sync, Motion Started"
  | _ => false

/-- Left-to-right ordering scanner: starting from state `some seen` (`seen` =
"an `isA` event has already occurred"), fail (produce `none`) at the first
`isB` event with no earlier `isA` event, and otherwise thread the state through
the list. -/
def scanPreceded (isA isB : Event → Bool) : Option Bool → List Event → Option Bool
  | s, [] => s
  | none, _ :: _ => none
  | some seen, e :: rest =>
      if isB e && !seen then none
      else scanPreceded isA isB (some (seen || isA e)) rest

/-- Environment of `heartbeatTask`: the tick at which the task starts
(`xTaskGetTickCount`, line 139) and the result of
`EPOS4::sendHeartbeat(masterNodeID)` at each iteration. -/
structure HBEnv where
  startTick : Nat
  sendResult : Nat → Nat

/-- Observable actions of `heartbeatTask` (its startup log is elided). -/
inductive HBEvent where
  | send (node tick : Nat)
  | logSendError (tick : Nat)
  deriving DecidableEq, Repr

/-- Mirrors `const TickType_t sendFrequency = configTICK_RATE_HZ` (line 140):
the delay period of the heartbeat loop in ticks, as a function of the FreeRTOS
tick rate (ticks per second), so the period is always one second. -/
def sendFrequency (configTICK_RATE_HZ : Nat) : Nat := configTICK_RATE_HZ

/-- Interpretation of the `while (true)` body of `heartbeatTask` (src/main.cpp
lines 142-151) with fuel: iteration `n` wakes at tick `last` (maintained by
`xTaskDelayUntil(&hbLastSendTime, sendFrequency)`, which advances the wake time
by exactly `sendFrequency` ticks per iteration), broadcasts one heartbeat with
the master Node-ID, and logs `HEARTBEAT_SEND_ERROR` when the send result is not
`ERROR_CODE_NOERROR`. -/
def heartbeatRun (hz : Nat) (env : HBEnv) : Nat → Nat → Nat → List HBEvent
  | 0, _, _ => []
  | f + 1, n, last =>
      HBEvent.send masterNodeID last ::
        ((if env.sendResult n ≠ ERROR_CODE_NOERROR then [HBEvent.logSendError last]
          else []) ++
          heartbeatRun hz env f (n + 1) (last + sendFrequency hz))

/-- Trace of `heartbeatTask` for `fuel` iterations from its start. -/
def heartbeatTrace (hz : Nat) (env : HBEnv) (fuel : Nat) : List HBEvent :=
  heartbeatRun hz env fuel 0 env.startTick

/-- Recognises a heartbeat broadcast. -/
def isHBSend : HBEvent → Bool
  | HBEvent.send _ _ => true
  | _ => false

/-- Heartbeat production period converted to milliseconds: `sendFrequency hz`
ticks at `hz` ticks per second, i.e. `sendFrequency hz * (1000 / hz)` ms. -/
def heartbeatPeriodMs (hz : Nat) : Nat := sendFrequency hz * 1000 / hz

/-- Branches of the error-classification chain in `receiverTask`. -/
inductive ErrorReaction where
  | masterError
  | sdoError
  | eposError
  | noReaction
  deriving DecidableEq, Repr

/-- Mirrors the if/else-if chain of `receiverTask` (src/main.cpp lines 68-79)
applied to the parsed error value `p = EPOS4::parseError(error_code)`. -/
def receiverErrorBranch (p : Nat) : ErrorReaction :=
  if p = 0b1 then ErrorReaction.masterError
  else if p = 0b10 then ErrorReaction.sdoError
  else if p &&& 0b01111100 ≠ 0 then ErrorReaction.eposError
  else ErrorReaction.noReaction

/-- Modelled from the spec: `EPOS4::parseError` belongs to the external EPOS4
library, which is missing from this repository.  Per spec §7 the parsed error
code is a layered bitmask distinguishing three classes, and the tests of
`receiverTask` fix their encoding: a master-side error parses to `0b1`, an
SDO-protocol error to `0b10`, and a drive-reported error to a value with some
of bits 2-6 set and bits 0-1 clear.  `singleFailureCode p` states that `p` is
the parsed code of a single inbound failure, i.e. flags exactly one class. -/
def singleFailureCode (p : Nat) : Prop :=
  p = 0b1 ∨ p = 0b10 ∨ (p &&& 0b11 = 0 ∧ p &&& 0b01111100 ≠ 0)

/-- Concrete environment in which every library call succeeds, every cached
read is valid, and the target-reached bit stays 0. -/
def envOK : Env :=
  { nmtPreOpRes := 0, nmtOpRes := 0, cfgCWSRes := 0, cfgPVRes := 0, cfgSPRes := 0,
    inhibitRes := 0, odVelVal := 7000, odVelStatus := 1, odAccelVal := 10000,
    odAccelStatus := 1, odDecelVal := 10000, odDecelStatus := 1,
    cwStart := 63, cwReset := 31, targetReachedBit := fun _ => 0 }

/-- Concrete environment in which the three `configPDO` writes succeed but the
inhibit-time `sendSDO` write fails. -/
def envInhibitFail : Env :=
  { envOK with inhibitRes := 3 }

/-- Concrete environment in which the second `configPDO` write fails. -/
def envCfgFail : Env :=
  { envOK with cfgPVRes := 5 }

/-- Concrete environment in which setup succeeds and the target-reached bit is
already 1 at every poll. -/
def envReach : Env :=
  { envOK with targetReachedBit := fun _ => 1 }

/-! ## General helper lemmas -/

theorem nat_or_eq_zero_iff (x y : Nat) : x ||| y = 0 ↔ (x = 0 ∧ y = 0) := by
  constructor
  · intro h
    have hb : ∀ i, x.testBit i = false ∧ y.testBit i = false := by
      intro i
      have hc := congrArg (fun z => Nat.testBit z i) h
      simp only [Nat.testBit_or, Nat.zero_testBit] at hc
      exact Bool.or_eq_false_iff.mp hc
    exact ⟨Nat.eq_of_testBit_eq (fun i => by simp [(hb i).1]),
           Nat.eq_of_testBit_eq (fun i => by simp [(hb i).2])⟩
  · rintro ⟨hx, hy⟩
    simp [hx, hy]

theorem and_mod256_bit0 (a b c : Nat) :
    ((a % 256) &&& (b % 256)) &&& (c % 256) &&& 1 ≠ 0 ↔
      (a % 2 = 1 ∧ b % 2 = 1 ∧ c % 2 = 1) := by
  have h : ∀ x : Nat, (x &&& 1 ≠ 0) ↔ x.testBit 0 = true := by
    intro x
    rw [Nat.and_one_is_mod]
    simp [Nat.testBit_zero]
  rw [h]
  simp only [Nat.testBit_and]
  have h256 : ∀ x : Nat, (x % 256).testBit 0 = x.testBit 0 := by
    intro x
    have he : (256 : Nat) = 2 ^ 8 := by norm_num
    rw [he, Nat.testBit_mod_two_pow]
    simp
  simp only [h256, Nat.testBit_zero]
  simp [and_assoc]

/-! ## C2: receiver error classification -/

/-- C2: the classification chain of `receiverTask` classifies any single
inbound failure without ambiguity: every parsed single-failure error value is
nonzero, satisfies exactly one of the three branch conditions
(`p == 0b1`, `p == 0b10`, `p & 0b01111100` nonzero), and is therefore routed
to exactly one (non-trivial) reaction branch. -/
theorem receiver_classification_unambiguous (p : Nat) (h : singleFailureCode p) :
    p ≠ 0 ∧
      ((p = 0b1 ∧ ¬p = 0b10 ∧ p &&& 0b01111100 = 0) ∨
        (¬p = 0b1 ∧ p = 0b10 ∧ p &&& 0b01111100 = 0) ∨
        (¬p = 0b1 ∧ ¬p = 0b10 ∧ p &&& 0b01111100 ≠ 0)) ∧
      receiverErrorBranch p ≠ ErrorReaction.noReaction := by
  rcases h with h1 | h2 | ⟨hlow, hdrive⟩
  · subst h1; refine ⟨by decide, Or.inl (by decide), by decide⟩
  · subst h2; refine ⟨by decide, Or.inr (Or.inl (by decide)), by decide⟩
  · have hp1 : ¬p = 1 := by
      intro he; subst he; simp at hlow
    have hp2 : ¬p = 2 := by
      intro he; subst he; simp at hlow
    have hp0 : p ≠ 0 := by
      intro he; subst he; simp at hdrive
    refine ⟨hp0, Or.inr (Or.inr ⟨hp1, hp2, hdrive⟩), ?_⟩
    simp only [receiverErrorBranch, if_neg hp1, if_neg hp2, if_pos hdrive]
    decide

/-- Witness for C2 at the concrete drive-reported error code `p = 4`. -/
theorem receiver_classification_unambiguous_witness :
    receiverErrorBranch 4 ≠ ErrorReaction.noReaction :=
  (receiver_classification_unambiguous 4
    (Or.inr (Or.inr ⟨by decide, by decide⟩))).2.2

/-! ## C3: PDOHelper error aggregation -/

/-- C3 counterexample: in `envInhibitFail` the three `configPDO` writes succeed
but the inhibit-time `sendSDO` write fails, yet `PDOHelper` still returns
`ERROR_CODE_NOERROR`, refuting the claim that it returns `ERROR_CODE_NOERROR`
if and only if every underlying configuration write (including the inhibit-time
`sendSDO` write) succeeds. -/
theorem pdoHelper_claim_false_at_inhibit_failure :
    ¬(PDOHelperRet envInhibitFail = ERROR_CODE_NOERROR ↔
        (envInhibitFail.cfgCWSRes = ERROR_CODE_NOERROR ∧
          envInhibitFail.cfgPVRes = ERROR_CODE_NOERROR ∧
          envInhibitFail.cfgSPRes = ERROR_CODE_NOERROR ∧
          envInhibitFail.inhibitRes = ERROR_CODE_NOERROR)) := by
  decide

/-- C3 amended: `PDOHelper` returns `ERROR_CODE_NOERROR` if and only if the
three `configPDO` calls all succeed; on any `configPDO` failure it returns the
aggregated error `MASTER_ERROR_CODE_GENERIC_ERROR`; and the result of the
inhibit-time `sendSDO` write is discarded, so it never affects the returned
value. -/
theorem pdoHelper_aggregates_configPDO_only (env : Env) :
    (PDOHelperRet env = ERROR_CODE_NOERROR ↔
        (env.cfgCWSRes = ERROR_CODE_NOERROR ∧ env.cfgPVRes = ERROR_CODE_NOERROR ∧
          env.cfgSPRes = ERROR_CODE_NOERROR)) ∧
      (PDOHelperRet env ≠ ERROR_CODE_NOERROR →
        PDOHelperRet env = MASTER_ERROR_CODE_GENERIC_ERROR) ∧
      (∀ r, PDOHelperRet { env with inhibitRes := r } = PDOHelperRet env) := by
  have hzero : ((0 ||| env.cfgCWSRes) ||| env.cfgPVRes) ||| env.cfgSPRes = 0 ↔
      (env.cfgCWSRes = 0 ∧ env.cfgPVRes = 0 ∧ env.cfgSPRes = 0) := by
    rw [nat_or_eq_zero_iff, nat_or_eq_zero_iff, nat_or_eq_zero_iff]
    tauto
  have hret : ∀ e : Env, PDOHelperRet e =
      if ((0 ||| e.cfgCWSRes) ||| e.cfgPVRes) ||| e.cfgSPRes ≠ 0 then
        MASTER_ERROR_CODE_GENERIC_ERROR
      else ERROR_CODE_NOERROR := fun _ => rfl
  refine ⟨?_, ?_, ?_⟩
  · rw [hret]
    by_cases hc : ((0 ||| env.cfgCWSRes) ||| env.cfgPVRes) ||| env.cfgSPRes ≠ 0
    · rw [if_pos hc]
      constructor
      · intro h; cases h
      · intro hall
        exact absurd (hzero.mpr hall) hc
    · rw [if_neg hc]
      have := hzero.mp (by simpa using hc)
      simp [this, ERROR_CODE_NOERROR]
  · rw [hret]
    by_cases hc : ((0 ||| env.cfgCWSRes) ||| env.cfgPVRes) ||| env.cfgSPRes ≠ 0
    · rw [if_pos hc]; intro _; rfl
    · rw [if_neg hc]; intro h; exact absurd rfl h
  · intro r; rfl

/-- Witness for the amended C3 at the concrete environment `envCfgFail`. -/
theorem pdoHelper_aggregates_configPDO_only_witness :
    PDOHelperRet envCfgFail = MASTER_ERROR_CODE_GENERIC_ERROR :=
  (pdoHelper_aggregates_configPDO_only envCfgFail).2.1 (by decide)

/-! ## C5: PDOHelper reset and settling delay come first -/

/-- C5: in every execution of `PDOHelper`, the map reset is the first action,
the 100 ms settling delay is the second, and every configuration write (the
`configPDO` calls and the inhibit-time `sendSDO` write) occurs only at
position 2 or later, hence after both. -/
theorem pdoHelper_reset_then_delay_first (env : Env) :
    (PDOHelper env).1.get? 0 = some Event.resetNumPDOMapped ∧
      (PDOHelper env).1.get? 1 = some (Event.wait 100) ∧
      ∀ i e, (PDOHelper env).1.get? i = some e → isConfigWrite e = true → 2 ≤ i := by
  refine ⟨rfl, rfl, ?_⟩
  intro i e hi hc
  match i with
  | 0 =>
      have he : e = Event.resetNumPDOMapped := by
        simpa [PDOHelper] using hi.symm
      rw [he] at hc
      cases hc
  | 1 =>
      have he : e = Event.wait 100 := by
        simpa [PDOHelper] using hi.symm
      rw [he] at hc
      cases hc
  | n + 2 => omega

/-- Witness for C5 at the concrete environment `envOK` and the first
`configPDO` event. -/
theorem pdoHelper_reset_then_delay_first_witness :
    (PDOHelper envOK).1.get? 0 = some Event.resetNumPDOMapped ∧ 2 ≤ 2 :=
  ⟨(pdoHelper_reset_then_delay_first envOK).1,
   (pdoHelper_reset_then_delay_first envOK).2.2 2 (Event.configPDO "CWS") rfl rfl⟩

/-! ## C6: cached profile restored only when all three reads were valid -/

/-- C6: when the polling loop of `app_main` exits (the target-reached bit is
1), bit 0 of the accumulated status `statusAll` is set exactly when each of the
three `getODpair` reads returned an odd (valid) status byte; the three old
profile values are written back when that bit is set, and when it is clear no
write of any old value (no `sendRxPDO`, no `sendSDO`) is emitted at all. -/
theorem profile_restore_iff_all_valid (env : Env) (i : Nat)
    (h : env.targetReachedBit i = 1) :
    (statusAll env &&& 1 ≠ 0 ↔
        (env.odVelStatus % 2 = 1 ∧ env.odAccelStatus % 2 = 1 ∧
          env.odDecelStatus % 2 = 1)) ∧
      (statusAll env &&& 1 ≠ 0 →
        Event.sendRxPDO "PV" env.odVelVal ∈ (phaseStep env (Phase.poll i)).1 ∧
          Event.sendSDO ODRef.profileAcceleration env.odAccelVal ∈
            (phaseStep env (Phase.poll i)).1 ∧
          Event.sendSDO ODRef.profileDeceleration env.odDecelVal ∈
            (phaseStep env (Phase.poll i)).1) ∧
      (statusAll env &&& 1 = 0 →
        (∀ n v, Event.sendRxPDO n v ∉ (phaseStep env (Phase.poll i)).1) ∧
          (∀ r v, Event.sendSDO r v ∉ (phaseStep env (Phase.poll i)).1)) := by
  have hstep : (phaseStep env (Phase.poll i)).1 = afterPollEvents env := by
    simp [phaseStep, h]
  have hm : statusAll env &&& 1 = statusAll env % 2 := Nat.and_one_is_mod _
  refine ⟨and_mod256_bit0 _ _ _, ?_, ?_⟩
  · intro hbit
    rw [hstep]
    have hb2 : statusAll env % 2 = 1 := by
      rw [hm] at hbit
      omega
    simp [afterPollEvents, hb2]
  · intro hbit
    rw [hstep]
    have hb2 : statusAll env % 2 = 0 := by
      rw [hm] at hbit
      exact hbit
    constructor
    · intro n v
      simp [afterPollEvents, hb2]
    · intro r v
      simp [afterPollEvents, hb2]

/-- Witness for C6 at the concrete environment `envReach` (all statuses
valid). -/
theorem profile_restore_iff_all_valid_witness :
    Event.sendRxPDO "PV" envReach.odVelVal ∈ (phaseStep envReach (Phase.poll 0)).1 :=
  ((profile_restore_iff_all_valid envReach 0 rfl).2.1 (by decide)).1

/-! ## Helper lemmas on executions of app_main -/

theorem runPhase_fail (env : Env) : ∀ f, runPhase env f Phase.fail = Phase.fail := by
  intro f
  induction f with
  | zero => rfl
  | succ f ih => simpa [runPhase, phaseStep] using ih

theorem runEvents_fail (env : Env) :
    ∀ f, runEvents env f Phase.fail = List.replicate f (Event.wait 1000) := by
  intro f
  induction f with
  | zero => rfl
  | succ f ih => simp [runEvents, phaseStep, ih, List.replicate_succ]

theorem entryStep_phase_cases (env : Env) :
    (entryStep env).2 = Phase.poll 0 ∨ (entryStep env).2 = Phase.fail := by
  unfold entryStep
  by_cases h1 : env.nmtPreOpRes = ERROR_CODE_NOERROR <;>
    by_cases h2 : PDOHelperRet env = ERROR_CODE_NOERROR <;>
      by_cases h3 : env.nmtOpRes = ERROR_CODE_NOERROR <;>
        simp [h1, h2, h3]

theorem phaseStep_ne_returned (env : Env) (p : Phase) (h : p ≠ Phase.returned) :
    (phaseStep env p).2 ≠ Phase.returned := by
  cases p with
  | entry =>
      rcases entryStep_phase_cases env with he | he <;> simp [phaseStep, he]
  | poll i =>
      by_cases hb : env.targetReachedBit i = 1 <;> simp [phaseStep, hb]
  | demo => simp [phaseStep]
  | fail => simp [phaseStep]
  | returned => exact absurd rfl h

theorem runPhase_ne_returned (env : Env) :
    ∀ f p, p ≠ Phase.returned → runPhase env f p ≠ Phase.returned := by
  intro f
  induction f with
  | zero => intro p h; exact h
  | succ f ih => intro p h; exact ih _ (phaseStep_ne_returned env p h)

theorem forall_mem_wait_replicate (f : Nat) :
    ∀ e ∈ List.replicate f (Event.wait 1000), isMotionEvent e = false := by
  intro e he
  rw [List.eq_of_mem_replicate he]
  rfl

/-! ## C1: setup failure keeps the system in the non-moving failure loop -/

/-- C1: if any setup step of `app_main` fails (the Pre-Operational NMT
transition, `PDOHelper`, or the Operational NMT transition returns a value
other than `ERROR_CODE_NOERROR`), then no motion command is ever issued at any
fuel: no `enable`, `moveToTargetVelocity`, `moveToTargetPosition`, `sendRxPDO`
or `broadcastSync` event appears in the trace, and after at least one step the
program is (and by `runPhase_fail` remains) in the failure wait loop. -/
theorem setup_failure_never_moves (env : Env) (fuel : Nat)
    (h : env.nmtPreOpRes ≠ ERROR_CODE_NOERROR ∨ PDOHelperRet env ≠ ERROR_CODE_NOERROR ∨
        env.nmtOpRes ≠ ERROR_CODE_NOERROR) :
    (∀ e ∈ appMainEvents env fuel, isMotionEvent e = false) ∧
      (1 ≤ fuel → appMainPhase env fuel = Phase.fail) := by
  cases fuel with
  | zero =>
      constructor
      · intro e he
        simp [appMainEvents, runEvents] at he
      · intro hf
        omega
  | succ f =>
      obtain ⟨hp, hev⟩ : (entryStep env).2 = Phase.fail ∧
          ∀ e ∈ (entryStep env).1, isMotionEvent e = false := by
        by_cases h1 : env.nmtPreOpRes = ERROR_CODE_NOERROR
        · by_cases h2 : PDOHelperRet env = ERROR_CODE_NOERROR
          · by_cases h3 : env.nmtOpRes = ERROR_CODE_NOERROR
            · rcases h with h | h | h <;> exact absurd (by assumption) h
            · have hlist : (entryStep env).1 =
                  preNMTEvents ++
                    [Event.logMsg "NMT" "Set to Pre-Operational", Event.wait 1000] ++
                    [Event.resetNumPDOMapped, Event.wait 100, Event.configPDO "CWS",
                      Event.configPDO "PV", Event.configPDO "SP",
                      Event.sendSDO ODRef.inhibitTimeTxPDO1 100] ++
                    [Event.logMsg "app_main" "EPOS PDO CONFIGURATION FINISHED",
                      Event.setHeartbeatConsumer masterNodeID 1500, Event.wait 1000,
                      Event.changeNMT NMTCommand.gotoOperational] ++
                    [Event.logMsg "DEMO" "Setup Failed!"] := by
                simp [entryStep, h1, h2, h3, PDOHelper]
              refine ⟨by simp [entryStep, h1, h2, h3], ?_⟩
              rw [hlist]
              decide
          · have hlist : (entryStep env).1 =
                preNMTEvents ++
                  [Event.logMsg "NMT" "Set to Pre-Operational", Event.wait 1000] ++
                  [Event.resetNumPDOMapped, Event.wait 100, Event.configPDO "CWS",
                    Event.configPDO "PV", Event.configPDO "SP",
                    Event.sendSDO ODRef.inhibitTimeTxPDO1 100] ++
                  [Event.logMsg "DEMO" "Setup Failed!"] := by
              simp [entryStep, h1, h2, PDOHelper]
            refine ⟨by simp [entryStep, h1, h2], ?_⟩
            rw [hlist]
            decide
        · have hlist : (entryStep env).1 =
              preNMTEvents ++ [Event.logMsg "DEMO" "Setup Failed!"] := by
            simp [entryStep, h1]
          refine ⟨by simp [entryStep, h1], ?_⟩
          rw [hlist]
          decide
      constructor
      · intro e he
        simp only [appMainEvents, runEvents, phaseStep] at he
        rcases List.mem_append.mp he with he | he
        · exact hev e he
        · rw [hp, runEvents_fail] at he
          exact forall_mem_wait_replicate f e he
      · intro _
        simp only [appMainPhase, runPhase, phaseStep]
        rw [hp, runPhase_fail]

/-- Witness for C1 at the concrete environment where the Operational NMT
transition fails. -/
theorem setup_failure_never_moves_witness :
    appMainPhase { envOK with nmtOpRes := 2 } 4 = Phase.fail :=
  (setup_failure_never_moves { envOK with nmtOpRes := 2 } 4
    (Or.inr (Or.inr (by decide)))).2 (by decide)

/-! ## C9: app_main never returns -/

/-- C9: `app_main` never returns: for every environment and every amount of
fuel, execution from the entry never reaches `Phase.returned` (the end of the
function body); control always remains inside the setup sequence, the polling
loop, the demo motion loop, or the failure wait loop, the last two of which
step back to themselves forever. -/
theorem appMain_never_returns (env : Env) (fuel : Nat) :
    appMainPhase env fuel ≠ Phase.returned :=
  runPhase_ne_returned env fuel Phase.entry (by decide)

/-- Witness for C9 at the concrete environment `envOK`. -/
theorem appMain_never_returns_witness : appMainPhase envOK 2 ≠ Phase.returned :=
  appMain_never_returns envOK 2

/-! ## C7: the target-reached polling loop has no upper bound -/

theorem runPhase_poll_stuck (env : Env) (hb : ∀ k, env.targetReachedBit k ≠ 1) :
    ∀ f i, runPhase env f (Phase.poll i) = Phase.poll (i + f) := by
  intro f
  induction f with
  | zero => intro i; rfl
  | succ f ih =>
      intro i
      have hstep : (phaseStep env (Phase.poll i)).2 = Phase.poll (i + 1) := by
        simp [phaseStep, hb i]
      simp only [runPhase, hstep, ih]
      congr 1
      omega

/-- C7: the busy-poll loop for the target-reached bit has no upper bound: if
setup succeeds and the bit never becomes 1, then after any positive fuel
`app_main` is still at the polling-loop head (having completed one iteration
per unit of fuel), and it never progresses to the demo loop that follows the
polling loop. -/
theorem target_poll_unbounded (env : Env)
    (h1 : env.nmtPreOpRes = ERROR_CODE_NOERROR)
    (h2 : PDOHelperRet env = ERROR_CODE_NOERROR)
    (h3 : env.nmtOpRes = ERROR_CODE_NOERROR)
    (hb : ∀ k, env.targetReachedBit k ≠ 1) :
    (∀ fuel, appMainPhase env (fuel + 1) = Phase.poll fuel) ∧
      ∀ fuel, appMainPhase env fuel ≠ Phase.demo := by
  have hentry : (phaseStep env Phase.entry).2 = Phase.poll 0 := by
    simp [phaseStep, entryStep, h1, h2, h3]
  have hmain : ∀ fuel, appMainPhase env (fuel + 1) = Phase.poll fuel := by
    intro fuel
    simp only [appMainPhase, runPhase, hentry, runPhase_poll_stuck env hb]
    congr 1
    omega
  refine ⟨hmain, ?_⟩
  intro fuel
  cases fuel with
  | zero =>
      simp [appMainPhase, runPhase]
  | succ f =>
      rw [hmain f]
      simp

/-- Witness for C7 at the concrete environment `envOK`, whose target-reached
bit is constantly 0. -/
theorem target_poll_unbounded_witness : appMainPhase envOK 3 = Phase.poll 2 :=
  (target_poll_unbounded envOK rfl rfl rfl (fun _ => Nat.zero_ne_one)).1 2

/-! ## Closed forms of the entry-step event lists -/

/-- Event list of `PDOHelper`, as a closed list. -/
def pdoHelperEventsList : List Event :=
  [Event.resetNumPDOMapped, Event.wait 100, Event.configPDO "CWS", Event.configPDO "PV",
   Event.configPDO "SP", Event.sendSDO ODRef.inhibitTimeTxPDO1 100]

/-- Entry events when setup fails at the Pre-Operational transition. -/
def setupFail1Events : List Event :=
  preNMTEvents ++ [Event.logMsg "DEMO" "Setup Failed!"]

/-- Entry events when setup fails at `PDOHelper`. -/
def setupFail2Events : List Event :=
  preNMTEvents ++ [Event.logMsg "NMT" "Set to Pre-Operational", Event.wait 1000] ++
    pdoHelperEventsList ++ [Event.logMsg "DEMO" "Setup Failed!"]

/-- Entry events up to and including the Operational NMT command. -/
def preOperationalOkEvents : List Event :=
  preNMTEvents ++ [Event.logMsg "NMT" "Set to Pre-Operational", Event.wait 1000] ++
    pdoHelperEventsList ++
    [Event.logMsg "app_main" "EPOS PDO CONFIGURATION FINISHED",
     Event.setHeartbeatConsumer masterNodeID 1500, Event.wait 1000,
     Event.changeNMT NMTCommand.gotoOperational]

/-- Entry events when setup fails at the Operational transition. -/
def setupFail3Events : List Event :=
  preOperationalOkEvents ++ [Event.logMsg "DEMO" "Setup Failed!"]

/-- Entry events when the whole setup succeeds. -/
def successEntryEvents (env : Env) : List Event :=
  preOperationalOkEvents ++ successMotionEvents env

theorem entryStep_eq_fail1 (env : Env) (h1 : ¬env.nmtPreOpRes = ERROR_CODE_NOERROR) :
    entryStep env = (setupFail1Events, Phase.fail) := by
  simp [entryStep, h1, setupFail1Events]

theorem entryStep_eq_fail2 (env : Env) (h1 : env.nmtPreOpRes = ERROR_CODE_NOERROR)
    (h2 : ¬PDOHelperRet env = ERROR_CODE_NOERROR) :
    entryStep env = (setupFail2Events, Phase.fail) := by
  simp [entryStep, h1, h2, setupFail2Events, pdoHelperEventsList, PDOHelper]

theorem entryStep_eq_fail3 (env : Env) (h1 : env.nmtPreOpRes = ERROR_CODE_NOERROR)
    (h2 : PDOHelperRet env = ERROR_CODE_NOERROR) (h3 : ¬env.nmtOpRes = ERROR_CODE_NOERROR) :
    entryStep env = (setupFail3Events, Phase.fail) := by
  simp [entryStep, h1, h2, h3, setupFail3Events, preOperationalOkEvents,
    pdoHelperEventsList, PDOHelper]

theorem entryStep_eq_success (env : Env) (h1 : env.nmtPreOpRes = ERROR_CODE_NOERROR)
    (h2 : PDOHelperRet env = ERROR_CODE_NOERROR) (h3 : env.nmtOpRes = ERROR_CODE_NOERROR) :
    entryStep env = (successEntryEvents env, Phase.poll 0) := by
  simp [entryStep, h1, h2, h3, successEntryEvents, preOperationalOkEvents,
    pdoHelperEventsList, PDOHelper]

/-! ## Ordering-scanner lemmas -/

theorem scanPreceded_none_eq (isA isB : Event → Bool) (l : List Event) :
    scanPreceded isA isB none l = none := by
  cases l <;> rfl

theorem scanPreceded_append (isA isB : Event → Bool) (l1 l2 : List Event) :
    ∀ s, scanPreceded isA isB s (l1 ++ l2) =
      scanPreceded isA isB (scanPreceded isA isB s l1) l2 := by
  induction l1 with
  | nil => intro s; cases s <;> rfl
  | cons e rest ih =>
      intro s
      cases s with
      | none => simp [scanPreceded_none_eq]
      | some seen =>
          by_cases hc : isB e && !seen
          · simp [scanPreceded, hc, scanPreceded_none_eq]
          · simp [scanPreceded, hc, ih]

theorem scanPreceded_some_true (isA isB : Event → Bool) (l : List Event) :
    scanPreceded isA isB (some true) l = some true := by
  induction l with
  | nil => rfl
  | cons e rest ih => simpa [scanPreceded] using ih

theorem scanPreceded_no_hits (isA isB : Event → Bool) :
    ∀ (l : List Event), (∀ e ∈ l, isA e = false ∧ isB e = false) →
      ∀ b, scanPreceded isA isB (some b) l = some b := by
  intro l
  induction l with
  | nil => intro _ b; rfl
  | cons a rest ih =>
      intro h b
      have ha := h a (List.mem_cons_self a rest)
      simp [scanPreceded, ha.1, ha.2]
      exact ih (fun e he => h e (List.mem_cons_of_mem a he)) b

theorem scanPreceded_sound (isA isB : Event → Bool) :
    ∀ (l : List Event) (seen : Bool),
      scanPreceded isA isB (some seen) l ≠ none →
      ∀ i e, l.get? i = some e → isB e = true →
        seen = true ∨ ∃ j, j < i ∧ ∃ e2, l.get? j = some e2 ∧ isA e2 = true := by
  intro l
  induction l with
  | nil =>
      intro seen _ i e hi
      simp at hi
  | cons a rest ih =>
      intro seen hscan i e hi hB
      by_cases hcond : isB a && !seen
      · exact absurd (by simp [scanPreceded, hcond]) hscan
      · cases i with
        | zero =>
            have ha : a = e := by simpa using hi
            subst ha
            left
            cases seen with
            | false => exact absurd (by simp [hB]) hcond
            | true => rfl
        | succ n =>
            have hscan2 : scanPreceded isA isB (some (seen || isA a)) rest ≠ none := by
              intro hn
              exact hscan (by simp [scanPreceded, hcond, hn])
            have hi2 : rest.get? n = some e := by simpa using hi
            rcases ih (seen || isA a) hscan2 n e hi2 hB with hor | ⟨j, hj, e2, hj2, hA⟩
            · rcases Bool.or_eq_true_iff.mp hor with hs | hA
              · exact Or.inl hs
              · exact Or.inr ⟨0, Nat.succ_pos n, a, rfl, hA⟩
            · exact Or.inr ⟨j + 1, Nat.succ_lt_succ hj, e2, by simpa using hj2, hA⟩

theorem scanPreceded_false_sound (isA isB : Event → Bool) (l : List Event)
    (h : scanPreceded isA isB (some false) l ≠ none) :
    ∀ i e, l.get? i = some e → isB e = true →
      ∃ j, j < i ∧ ∃ e2, l.get? j = some e2 ∧ isA e2 = true := by
  intro i e hi hB
  rcases scanPreceded_sound isA isB l false h i e hi hB with hfalse | hgood
  · simp at hfalse
  · exact hgood

theorem fail_events_no_hits (isA isB : Event → Bool)
    (hA : isA (Event.wait 1000) = false) (hB : isB (Event.wait 1000) = false)
    (env : Env) (f : Nat) (b : Bool) :
    scanPreceded isA isB (some b) (runEvents env f Phase.fail) = some b := by
  rw [runEvents_fail]
  refine scanPreceded_no_hits isA isB _ ?_ b
  intro e he
  rw [List.eq_of_mem_replicate he]
  exact ⟨hA, hB⟩

theorem appMain_scan_ok (env : Env) (fuel : Nat) :
    scanPreceded isCWSWrite isSyncEvent (some false) (appMainEvents env fuel) ≠ none ∧
      scanPreceded isSyncEvent isMotionStartedLog (some false) (appMainEvents env fuel) ≠ none := by
  cases fuel with
  | zero =>
      constructor <;> simp [appMainEvents, runEvents, scanPreceded]
  | succ f =>
      have hsplit : appMainEvents env (f + 1) =
          (entryStep env).1 ++ runEvents env f (entryStep env).2 := by
        simp [appMainEvents, runEvents, phaseStep]
      by_cases h1 : env.nmtPreOpRes = ERROR_CODE_NOERROR
      · by_cases h2 : PDOHelperRet env = ERROR_CODE_NOERROR
        · by_cases h3 : env.nmtOpRes = ERROR_CODE_NOERROR
          · have he := entryStep_eq_success env h1 h2 h3
            rw [hsplit, he]
            constructor
            · rw [scanPreceded_append]
              have : scanPreceded isCWSWrite isSyncEvent (some false)
                  (successEntryEvents env) = some true := rfl
              rw [this, scanPreceded_some_true]
              simp
            · rw [scanPreceded_append]
              have : scanPreceded isSyncEvent isMotionStartedLog (some false)
                  (successEntryEvents env) = some true := rfl
              rw [this, scanPreceded_some_true]
              simp
          · have he := entryStep_eq_fail3 env h1 h2 h3
            rw [hsplit, he]
            constructor
            · rw [scanPreceded_append]
              have : scanPreceded isCWSWrite isSyncEvent (some false)
                  setupFail3Events = some false := rfl
              rw [this, fail_events_no_hits isCWSWrite isSyncEvent rfl rfl]
              simp
            · rw [scanPreceded_append]
              have : scanPreceded isSyncEvent isMotionStartedLog (some false)
                  setupFail3Events = some false := rfl
              rw [this, fail_events_no_hits isSyncEvent isMotionStartedLog rfl rfl]
              simp
        · have he := entryStep_eq_fail2 env h1 h2
          rw [hsplit, he]
          constructor
          · rw [scanPreceded_append]
            have : scanPreceded isCWSWrite isSyncEvent (some false)
                setupFail2Events = some false := rfl
            rw [this, fail_events_no_hits isCWSWrite isSyncEvent rfl rfl]
            simp
          · rw [scanPreceded_append]
            have : scanPreceded isSyncEvent isMotionStartedLog (some false)
                setupFail2Events = some false := rfl
            rw [this, fail_events_no_hits isSyncEvent isMotionStartedLog rfl rfl]
            simp
      · have he := entryStep_eq_fail1 env h1
        rw [hsplit, he]
        constructor
        · rw [scanPreceded_append]
          have : scanPreceded isCWSWrite isSyncEvent (some false)
              setupFail1Events = some false := rfl
          rw [this, fail_events_no_hits isCWSWrite isSyncEvent rfl rfl]
          simp
        · rw [scanPreceded_append]
          have : scanPreceded isSyncEvent isMotionStartedLog (some false)
              setupFail1Events = some false := rfl
          rw [this, fail_events_no_hits isSyncEvent isMotionStartedLog rfl rfl]
          simp

/-! ## C4: the synchronous PDO write precedes the SYNC broadcast -/

/-- C4: in every execution of `app_main`, every `broadcastSync` event in the
trace is strictly preceded by a write to the synchronous control-word channel
(`sendRxPDO` on "CWS"), so the PDO frame precedes the SYNC frame on the bus;
moreover every "Sent Sync, Motion Started" log (the only point where the code
treats the motion as started) is strictly preceded by `broadcastSync`. -/
theorem pdo_write_precedes_sync (env : Env) (fuel : Nat) :
    (∀ i e, (appMainEvents env fuel).get? i = some e → isSyncEvent e = true →
        ∃ j, j < i ∧ ∃ e2, (appMainEvents env fuel).get? j = some e2 ∧
          isCWSWrite e2 = true) ∧
      (∀ i e, (appMainEvents env fuel).get? i = some e → isMotionStartedLog e = true →
        ∃ j, j < i ∧ ∃ e2, (appMainEvents env fuel).get? j = some e2 ∧
          isSyncEvent e2 = true) := by
  have h := appMain_scan_ok env fuel
  exact ⟨scanPreceded_false_sound isCWSWrite isSyncEvent _ h.1,
         scanPreceded_false_sound isSyncEvent isMotionStartedLog _ h.2⟩

/-- Witness for C4 at the concrete environment `envOK` and the concrete index
of the `broadcastSync` event in its trace. -/
theorem pdo_write_precedes_sync_witness :
    ∃ j, j < 47 ∧ ∃ e2, (appMainEvents envOK 1).get? j = some e2 ∧
      isCWSWrite e2 = true :=
  (pdo_write_precedes_sync envOK 1).1 47 Event.broadcastSync rfl rfl

/-! ## C8: heartbeat production schedule -/

theorem heartbeatRun_sends (hz : Nat) (env : HBEnv) :
    ∀ f n last, (heartbeatRun hz env f n last).filter isHBSend =
      (List.range f).map
        (fun k => HBEvent.send masterNodeID (last + k * sendFrequency hz)) := by
  intro f
  induction f with
  | zero => intro n last; rfl
  | succ f ih =>
      intro n last
      have hstep : heartbeatRun hz env (f + 1) n last =
          HBEvent.send masterNodeID last ::
            ((if env.sendResult n ≠ ERROR_CODE_NOERROR then [HBEvent.logSendError last]
              else []) ++
              heartbeatRun hz env f (n + 1) (last + sendFrequency hz)) := rfl
      rw [hstep, List.filter_cons_of_pos rfl, List.filter_append]
      have herr : (if env.sendResult n ≠ ERROR_CODE_NOERROR then [HBEvent.logSendError last]
          else []).filter isHBSend = [] := by
        by_cases hc : env.sendResult n ≠ ERROR_CODE_NOERROR <;> simp [hc, isHBSend]
      rw [herr, ih, List.range_succ_eq_map, List.map_cons, List.map_map]
      simp only [List.nil_append]
      congr 1
      · simp
      · refine List.map_congr_left ?_
        intro k _
        simp only [Function.comp_apply]
        congr 1
        rw [Nat.succ_mul]
        ac_rfl

theorem heartbeatRun_log_mem (hz : Nat) (env : HBEnv) :
    ∀ f k n last, k < f → env.sendResult (n + k) ≠ ERROR_CODE_NOERROR →
      HBEvent.logSendError (last + k * sendFrequency hz) ∈ heartbeatRun hz env f n last := by
  intro f
  induction f with
  | zero =>
      intro k n last hk hr
      exact absurd hk (Nat.not_lt_zero k)
  | succ f ih =>
      intro k n last hk hr
      have hstep : heartbeatRun hz env (f + 1) n last =
          HBEvent.send masterNodeID last ::
            ((if env.sendResult n ≠ ERROR_CODE_NOERROR then [HBEvent.logSendError last]
              else []) ++
              heartbeatRun hz env f (n + 1) (last + sendFrequency hz)) := rfl
      rw [hstep]
      cases k with
      | zero =>
          apply List.mem_cons_of_mem
          apply List.mem_append_left
          have hr0 : env.sendResult n ≠ ERROR_CODE_NOERROR := by simpa using hr
          simp [hr0]
      | succ k2 =>
          apply List.mem_cons_of_mem
          apply List.mem_append_right
          have hmem := ih k2 (n + 1) (last + sendFrequency hz) (by omega) (by
            have hn : n + 1 + k2 = n + (k2 + 1) := by omega
            rw [hn]; exact hr)
          have harith : last + sendFrequency hz + k2 * sendFrequency hz =
              last + (k2 + 1) * sendFrequency hz := by ring
          rw [← harith]
          exact hmem

/-- C8: `heartbeatTask` broadcasts exactly one heartbeat frame tagged with the
master Node-ID per fixed period of `sendFrequency hz = hz` ticks (one second at
`hz` ticks per second), at the fixed absolute schedule `startTick + n * hz`
maintained by `xTaskDelayUntil` regardless of the send results; a failed send
adds a `HEARTBEAT_SEND_ERROR` log event for that period but does not terminate
the task or alter the schedule (the send filter below does not depend on
`env.sendResult`). -/
theorem heartbeat_fixed_schedule (hz : Nat) (env : HBEnv) (fuel : Nat) :
    (heartbeatTrace hz env fuel).filter isHBSend =
        (List.range fuel).map
          (fun n => HBEvent.send masterNodeID (env.startTick + n * sendFrequency hz)) ∧
      ∀ n, n < fuel → env.sendResult n ≠ ERROR_CODE_NOERROR →
        HBEvent.logSendError (env.startTick + n * sendFrequency hz) ∈
          heartbeatTrace hz env fuel := by
  constructor
  · exact heartbeatRun_sends hz env fuel 0 env.startTick
  · intro n hn hr
    have := heartbeatRun_log_mem hz env fuel n 0 env.startTick hn (by simpa using hr)
    simpa using this

/-- Concrete heartbeat environment whose sends always fail. -/
def hbEnvFail : HBEnv := { startTick := 0, sendResult := fun _ => 1 }

/-- Witness for C8 at the concrete environment `hbEnvFail` with tick rate
1000. -/
theorem heartbeat_fixed_schedule_witness :
    HBEvent.logSendError (hbEnvFail.startTick + 0 * sendFrequency 1000) ∈
      heartbeatTrace 1000 hbEnvFail 2 :=
  (heartbeat_fixed_schedule 1000 hbEnvFail 2).2 0 (by decide) (by decide)

/-! ## C10: heartbeat period versus consumer timeout -/

theorem setHBC_mem_runEvents (env : Env) :
    ∀ f p n t, Event.setHeartbeatConsumer n t ∈ runEvents env f p →
      n = masterNodeID ∧ t = 1500 := by
  intro f
  induction f with
  | zero =>
      intro p n t h
      simp [runEvents] at h
  | succ f ih =>
      intro p n t h
      simp only [runEvents] at h
      rcases List.mem_append.mp h with h | h
      · cases p with
        | entry =>
            have hp : (phaseStep env Phase.entry).1 = (entryStep env).1 := rfl
            rw [hp] at h
            by_cases h1 : env.nmtPreOpRes = ERROR_CODE_NOERROR
            · by_cases h2 : PDOHelperRet env = ERROR_CODE_NOERROR
              · by_cases h3 : env.nmtOpRes = ERROR_CODE_NOERROR
                · rw [entryStep_eq_success env h1 h2 h3] at h
                  simp [successEntryEvents, preOperationalOkEvents, preNMTEvents,
                    pdoHelperEventsList, successMotionEvents] at h
                  exact h
                · rw [entryStep_eq_fail3 env h1 h2 h3] at h
                  simp [setupFail3Events, preOperationalOkEvents, preNMTEvents,
                    pdoHelperEventsList] at h
                  exact h
              · rw [entryStep_eq_fail2 env h1 h2] at h
                simp [setupFail2Events, preNMTEvents, pdoHelperEventsList] at h
            · rw [entryStep_eq_fail1 env h1] at h
              simp [setupFail1Events, preNMTEvents] at h
        | poll i =>
            by_cases hb : env.targetReachedBit i = 1
            · have hp : (phaseStep env (Phase.poll i)).1 = afterPollEvents env := by
                simp [phaseStep, hb]
              rw [hp] at h
              by_cases hs : statusAll env % 2 = 1 <;> simp [afterPollEvents, hs] at h
            · have hp : (phaseStep env (Phase.poll i)).1 = pollIterEvents := by
                simp [phaseStep, hb]
              rw [hp] at h
              simp [pollIterEvents] at h
        | demo => simp [phaseStep, demoIterEvents] at h
        | fail => simp [phaseStep] at h
        | returned => simp [phaseStep] at h
      · exact ih _ n t h

/-- C10: the heartbeat production period is 1000 ms (`sendFrequency hz = hz`
ticks at `hz` ticks per second), and it is strictly below the 1500 ms
heartbeat-consumer timeout that `app_main` configures on the node: the only
`setHeartbeatConsumer` event any execution of `app_main` can emit carries the
master Node-ID and 1500 ms, which exceeds the production period. -/
theorem heartbeat_period_below_consumer_timeout (hz : Nat) (hhz : 0 < hz) :
    heartbeatPeriodMs hz = 1000 ∧
      ∀ env fuel n t, Event.setHeartbeatConsumer n t ∈ appMainEvents env fuel →
        n = masterNodeID ∧ t = 1500 ∧ heartbeatPeriodMs hz < t := by
  have hp : heartbeatPeriodMs hz = 1000 := by
    unfold heartbeatPeriodMs sendFrequency
    exact Nat.mul_div_cancel_left 1000 hhz
  refine ⟨hp, ?_⟩
  intro env fuel n t hmem
  have hmain := setHBC_mem_runEvents env fuel Phase.entry n t hmem
  refine ⟨hmain.1, hmain.2, ?_⟩
  rw [hp, hmain.2]
  norm_num

/-- Witness for C10 at the concrete tick rate 1000. -/
theorem heartbeat_period_below_consumer_timeout_witness :
    heartbeatPeriodMs 1000 = 1000 :=
  (heartbeat_period_below_consumer_timeout 1000 (by decide)).1

end EPOS4Demo
